import Mathlib

/-!
Verification of the quick-intake form controller in
`src/app/intake/form/page.tsx`.

The embedding models, from the source:
  - the zod schema `QuickIntakeSchema` applied to the trimmed field values,
  - the pure mapping `issueTypeToInsurance`,
  - the name splitter inside `onSubmit` (trim, split on the space
    character, filter out empty tokens),
  - the submission payload literal,
  - the `onSubmit` handler as a function from the component state, the
    tracking session id and the fetch outcome to a final state plus a
    trace of the primitive effects it performs in order,
  - the component-level event step (field `onChange` handlers, the submit
    button with its `disabled={isSubmitting}` guard, and the fact that the
    success view renders no form controls at all).
-/

namespace QuickIntake

/-- JavaScript `String.prototype.trim`: drop leading and trailing
whitespace characters from both ends. -/
def jsTrim (s : String) : String :=
  String.mk (((s.data.dropWhile Char.isWhitespace).reverse.dropWhile
    Char.isWhitespace).reverse)

/-- Split a character list at every character satisfying `p`, keeping the
empty chunks between consecutive separators, as JavaScript
`split` does for a one-character separator. -/
def splitP (p : Char → Bool) : List Char → List (List Char)
  | [] => [[]]
  | c :: cs =>
    if p c then [] :: splitP p cs
    else
      match splitP p cs with
      | [] => [[c]]
      | t :: ts => (c :: t) :: ts

/-- The enumeration of `issue_type` in `QuickIntakeSchema`. -/
def issueTypes : List String :=
  ["work_injury", "mva", "sports", "chronic_pain", "other"]

/-- The enumeration of `location` in `QuickIntakeSchema`. -/
def locations : List String :=
  ["edmonton-main-hub", "edmonton-west"]

/-- The six draft fields held by the form component. -/
structure Draft where
  fullName : String
  phone : String
  issueType : String
  location : String
  consentPrivacy : Bool
  consentCommunication : Bool
  deriving DecidableEq, Repr

/-- The check `QuickIntakeSchema.safeParse` applied to the object `onSubmit` builds:
trimmed full name of length at least 3, trimmed phone of length at
least 10, enum membership for issue type and location, and both consent
flags literally true. -/
def quickIntakeParse (d : Draft) : Bool :=
  decide (3 ≤ (jsTrim d.fullName).length) &&
  decide (10 ≤ (jsTrim d.phone).length) &&
  issueTypes.contains d.issueType &&
  locations.contains d.location &&
  d.consentPrivacy &&
  d.consentCommunication

/-- The pure mapping `issueTypeToInsurance` from the source. -/
def issueTypeToInsurance (issueType : String) : String :=
  if issueType = "work_injury" then "wcb"
  else if issueType = "mva" then "mva"
  else "private"

/-- The token list `names` from `onSubmit`: trim the full name, split on
the space character, drop the empty strings. -/
def nameTokens (s : String) : List String :=
  ((splitP (fun c => c == ' ') (jsTrim s).data).filter
    (fun t => !t.isEmpty)).map (fun t => String.mk t)

/-- The first token, or the empty string when there is none, exactly as
in `onSubmit`. -/
def firstNameOf (s : String) : String := (nameTokens s).headD ""

/-- The remaining tokens joined with single spaces, the empty string
when there are none, exactly as in `onSubmit`. -/
def lastNameOf (s : String) : String :=
  String.intercalate " " ((nameTokens s).drop 1)

/-- Modelled from the spec: the splitter as the specification words it,
splitting the trimmed name on whitespace (any whitespace character),
dropping empty tokens. Used only to compare against the source splitter
`nameTokens`. -/
def wsTokens (s : String) : List String :=
  ((splitP Char.isWhitespace (jsTrim s).data).filter
    (fun t => !t.isEmpty)).map (fun t => String.mk t)

/-- First name under the spec-worded whitespace splitter. -/
def wsFirstNameOf (s : String) : String := (wsTokens s).headD ""

/-- Last name under the spec-worded whitespace splitter. -/
def wsLastNameOf (s : String) : String :=
  String.intercalate " " ((wsTokens s).drop 1)

/-- Field `patient_data` of the submission payload. -/
structure PatientData where
  first_name : String
  last_name : String
  phone : String
  deriving DecidableEq, Repr

/-- Field `injury_data` of the submission payload. -/
structure InjuryData where
  injury_type : String
  deriving DecidableEq, Repr

/-- Field `insurance_data` of the submission payload. -/
structure InsuranceData where
  insurance_type : String
  deriving DecidableEq, Repr

/-- Field `consent_data` of the submission payload. -/
structure ConsentData where
  privacy_consent : Bool
  treatment_consent : Bool
  communication_consent : Bool
  deriving DecidableEq, Repr

/-- The JSON body `onSubmit` posts to `/api/intake/save`; the empty
`medical_history` object is modelled as an association list. -/
structure SubmissionPayload where
  session_id : String
  patient_data : PatientData
  injury_data : InjuryData
  insurance_data : InsuranceData
  medical_history : List (String × String)
  consent_data : ConsentData
  status : String
  deriving DecidableEq, Repr

/-- The payload literal built in `onSubmit`, field for field.  Note that
`patient_data.phone` is the raw `phone` state, not its trimmed form,
exactly as in the source. -/
def buildPayload (d : Draft) (sessionId : String) : SubmissionPayload :=
  { session_id := sessionId
    patient_data :=
      { first_name := firstNameOf d.fullName
        last_name := lastNameOf d.fullName
        phone := d.phone }
    injury_data := { injury_type := d.issueType }
    insurance_data := { insurance_type := issueTypeToInsurance d.issueType }
    medical_history := []
    consent_data :=
      { privacy_consent := true
        treatment_consent := false
        communication_consent := true }
    status := "submitted" }

/-- The component state: the six draft fields plus the three view-state
hooks `isSubmitting`, `success`, `error`. -/
structure FormState where
  fullName : String
  phone : String
  issueType : String
  location : String
  consentPrivacy : Bool
  consentCommunication : Bool
  isSubmitting : Bool
  success : Bool
  error : Option String
  deriving DecidableEq, Repr

/-- The draft part of a component state. -/
def draftOf (s : FormState) : Draft :=
  { fullName := s.fullName
    phone := s.phone
    issueType := s.issueType
    location := s.location
    consentPrivacy := s.consentPrivacy
    consentCommunication := s.consentCommunication }

/-- Outcome of the `fetch` call: the promise resolves with `res.ok` true,
resolves with `res.ok` false, or rejects (network failure). -/
inductive FetchResult where
  | ok
  | httpError
  | networkFailure
  deriving DecidableEq, Repr

/-- The primitive effects `onSubmit` performs, in source order. -/
inductive Action where
  | setError (e : Option String)
  | setSubmitting (b : Bool)
  | fetch (p : SubmissionPayload)
  | setSuccess (b : Bool)
  deriving DecidableEq, Repr

/-- Result of running a handler: the final component state and the list
of effects performed, in order. -/
structure SubmitResult where
  final : FormState
  trace : List Action
  deriving DecidableEq, Repr

/-- The payloads actually handed to `fetch` during a run. -/
def fetchedPayloads (r : SubmitResult) : List SubmissionPayload :=
  r.trace.filterMap (fun a =>
    match a with
    | Action.fetch p => some p
    | _ => none)

/-- The generic validation message from the source. -/
def validationMsg : String := "Please complete all required fields."

/-- The missing-session message from the source. -/
def missingSessionMsg : String := "Missing session. Please refresh and try again."

/-- The submission-failure message from the source. -/
def submissionFailMsg : String :=
  "Something went wrong submitting your intake. Please call (780) 250-8188."

/-- The fallback phone contact that appears in the failure message. -/
def fallbackPhone : String := "(780) 250-8188"

/-- JavaScript truthiness of the session id: `null`, `undefined` and the
empty string are all falsy. -/
def sessionPresent : Option String → Bool
  | none => false
  | some sid => sid ≠ ""

/-- The `onSubmit` handler, line by line: clear the error, run
`safeParse` on the trimmed draft, bail out with the generic message on
failure, bail out with the session message when the session id is falsy,
otherwise set the in-flight flag, build the payload, perform the fetch,
mark success or set the failure message, and clear the in-flight flag in
the `finally` block. -/
def onSubmit (s : FormState) (sessionId : Option String) (net : FetchResult) :
    SubmitResult :=
  let s0 : FormState := { s with error := none }
  if quickIntakeParse (draftOf s) = false then
    { final := { s0 with error := some validationMsg }
      trace := [Action.setError none, Action.setError (some validationMsg)] }
  else if sessionPresent sessionId = false then
    { final := { s0 with error := some missingSessionMsg }
      trace := [Action.setError none, Action.setError (some missingSessionMsg)] }
  else
    let payload := buildPayload (draftOf s) (sessionId.getD "")
    match net with
    | FetchResult.ok =>
      { final := { s0 with isSubmitting := false, success := true }
        trace := [Action.setError none, Action.setSubmitting true,
                  Action.fetch payload, Action.setSuccess true,
                  Action.setSubmitting false] }
    | FetchResult.httpError =>
      { final := { s0 with isSubmitting := false, error := some submissionFailMsg }
        trace := [Action.setError none, Action.setSubmitting true,
                  Action.fetch payload, Action.setError (some submissionFailMsg),
                  Action.setSubmitting false] }
    | FetchResult.networkFailure =>
      { final := { s0 with isSubmitting := false, error := some submissionFailMsg }
        trace := [Action.setError none, Action.setSubmitting true,
                  Action.fetch payload, Action.setError (some submissionFailMsg),
                  Action.setSubmitting false] }

/-- The user-visible operations of the component: one `onChange` handler
per field, and the submit button. -/
inductive Event where
  | setFullName (v : String)
  | setPhone (v : String)
  | setIssueType (v : String)
  | setLocation (v : String)
  | setConsentPrivacy (b : Bool)
  | setConsentCommunication (b : Bool)
  | submitClick (sessionId : Option String) (net : FetchResult)
  deriving DecidableEq, Repr

/-- One component-level step.  When `success` is set the component
renders the confirmation card, which contains no form controls and no
submit button, so every event is inert; otherwise field events overwrite
one draft field, and the submit button runs `onSubmit` unless it is
disabled by `isSubmitting`. -/
def step (s : FormState) (e : Event) : SubmitResult :=
  if s.success = true then { final := s, trace := [] }
  else
    match e with
    | Event.setFullName v => { final := { s with fullName := v }, trace := [] }
    | Event.setPhone v => { final := { s with phone := v }, trace := [] }
    | Event.setIssueType v => { final := { s with issueType := v }, trace := [] }
    | Event.setLocation v => { final := { s with location := v }, trace := [] }
    | Event.setConsentPrivacy b =>
      { final := { s with consentPrivacy := b }, trace := [] }
    | Event.setConsentCommunication b =>
      { final := { s with consentCommunication := b }, trace := [] }
    | Event.submitClick sid net =>
      if s.isSubmitting = true then { final := s, trace := [] }
      else onSubmit s sid net

/-- A concrete valid state used by witnesses; the phone field carries a
leading space that survives into the payload. -/
def sampleState : FormState :=
  { fullName := "John Smith"
    phone := " 7802508188"
    issueType := "work_injury"
    location := "edmonton-main-hub"
    consentPrivacy := true
    consentCommunication := true
    isSubmitting := false
    success := false
    error := none }

/-- A state failing validation: the full name trims to fewer than three
characters. -/
def invalidState : FormState := { sampleState with fullName := "Jo" }

/-- A state with a submission in flight. -/
def inFlightState : FormState := { sampleState with isSubmitting := true }

/-- A state in the success view. -/
def succeededState : FormState := { sampleState with success := true }

theorem splitP_congr (p q : Char → Bool) :
    ∀ l : List Char, (∀ c ∈ l, p c = q c) → splitP p l = splitP q l := by
  intro l
  induction l with
  | nil => intro _; rfl
  | cons c cs ih =>
    intro h
    simp only [splitP]
    rw [h c (List.mem_cons_self c cs), ih (fun x hx => h x (List.mem_cons_of_mem c hx))]

theorem onSubmit_invalid_eq (s : FormState) (sid : Option String) (net : FetchResult)
    (h : quickIntakeParse (draftOf s) = false) :
    onSubmit s sid net =
      { final := { s with error := some validationMsg }
        trace := [Action.setError none, Action.setError (some validationMsg)] } := by
  unfold onSubmit
  rw [h]
  simp

theorem onSubmit_noSession_eq (s : FormState) (sid : Option String) (net : FetchResult)
    (h1 : quickIntakeParse (draftOf s) = true) (h2 : sessionPresent sid = false) :
    onSubmit s sid net =
      { final := { s with error := some missingSessionMsg }
        trace := [Action.setError none, Action.setError (some missingSessionMsg)] } := by
  unfold onSubmit
  rw [h1, h2]
  simp

theorem onSubmit_ok_eq (s : FormState) (sid : Option String)
    (h1 : quickIntakeParse (draftOf s) = true) (h2 : sessionPresent sid = true) :
    onSubmit s sid FetchResult.ok =
      { final := { s with error := none, isSubmitting := false, success := true }
        trace := [Action.setError none, Action.setSubmitting true,
                  Action.fetch (buildPayload (draftOf s) (sid.getD "")),
                  Action.setSuccess true, Action.setSubmitting false] } := by
  unfold onSubmit
  rw [h1, h2]
  simp

theorem onSubmit_fail_eq (s : FormState) (sid : Option String) (net : FetchResult)
    (h1 : quickIntakeParse (draftOf s) = true) (h2 : sessionPresent sid = true)
    (h3 : net ≠ FetchResult.ok) :
    onSubmit s sid net =
      { final := { s with error := some submissionFailMsg, isSubmitting := false }
        trace := [Action.setError none, Action.setSubmitting true,
                  Action.fetch (buildPayload (draftOf s) (sid.getD "")),
                  Action.setError (some submissionFailMsg),
                  Action.setSubmitting false] } := by
  unfold onSubmit
  rw [h1, h2]
  cases net with
  | ok => exact absurd rfl h3
  | httpError => simp
  | networkFailure => simp

theorem fetch_payload_eq (s : FormState) (sid : Option String) (net : FetchResult)
    (p : SubmissionPayload) (hp : p ∈ fetchedPayloads (onSubmit s sid net)) :
    p = buildPayload (draftOf s) (sid.getD "") ∧
    quickIntakeParse (draftOf s) = true ∧ sessionPresent sid = true := by
  cases hq : quickIntakeParse (draftOf s) with
  | false =>
    rw [onSubmit_invalid_eq s sid net hq] at hp
    simp [fetchedPayloads] at hp
  | true =>
    cases hs : sessionPresent sid with
    | false =>
      rw [onSubmit_noSession_eq s sid net hq hs] at hp
      simp [fetchedPayloads] at hp
    | true =>
      refine ⟨?_, rfl, rfl⟩
      cases net with
      | ok =>
        rw [onSubmit_ok_eq s sid hq hs] at hp
        simpa [fetchedPayloads] using hp
      | httpError =>
        rw [onSubmit_fail_eq s sid FetchResult.httpError hq hs (by simp)] at hp
        simpa [fetchedPayloads] using hp
      | networkFailure =>
        rw [onSubmit_fail_eq s sid FetchResult.networkFailure hq hs (by simp)] at hp
        simpa [fetchedPayloads] using hp

/-- C1: for every draft, validation succeeds exactly when the trimmed
full name has length at least 3, the trimmed phone has length at
least 10, the issue type and location are members of their enumerations,
and both consent flags are literally true; when validation fails,
`onSubmit` sets the single generic validation message and performs no
network call. -/
theorem validate_iff_spec (s : FormState) (sid : Option String) (net : FetchResult) :
    (quickIntakeParse (draftOf s) = true ↔
      (3 ≤ (jsTrim s.fullName).length ∧ 10 ≤ (jsTrim s.phone).length ∧
       s.issueType ∈ issueTypes ∧ s.location ∈ locations ∧
       s.consentPrivacy = true ∧ s.consentCommunication = true)) ∧
    (quickIntakeParse (draftOf s) = false →
      (onSubmit s sid net).final.error = some validationMsg ∧
      fetchedPayloads (onSubmit s sid net) = []) := by
  constructor
  · simp [quickIntakeParse, draftOf, Bool.and_eq_true, decide_eq_true_eq, and_assoc]
  · intro h
    rw [onSubmit_invalid_eq s sid net h]
    simp [fetchedPayloads]

/-- Witness for `validate_iff_spec` at a state whose full name trims to
two characters. -/
theorem validate_iff_spec_witness :
    quickIntakeParse (draftOf invalidState) = false ∧
    ((onSubmit invalidState (some "abc123") FetchResult.ok).final.error =
        some validationMsg ∧
      fetchedPayloads (onSubmit invalidState (some "abc123") FetchResult.ok) = []) :=
  ⟨by decide,
    (validate_iff_spec invalidState (some "abc123") FetchResult.ok).2 (by decide)⟩

/-- C4: the pure mapping sends work_injury to wcb, mva to mva, and each
of sports, chronic_pain, other to private; on the whole five-value
enumeration its image lies in the three insurance kinds. -/
theorem issueTypeToInsurance_spec :
    issueTypeToInsurance "work_injury" = "wcb" ∧
    issueTypeToInsurance "mva" = "mva" ∧
    issueTypeToInsurance "sports" = "private" ∧
    issueTypeToInsurance "chronic_pain" = "private" ∧
    issueTypeToInsurance "other" = "private" ∧
    ∀ t ∈ issueTypes, issueTypeToInsurance t ∈ ["wcb", "mva", "private"] := by
  decide

/-- Counterexample to C5 as stated: the source splitter splits only on
the space character, so a name containing an internal tab is not split
on whitespace; the first token under the source splitter differs from
the first token under whitespace splitting. -/
theorem nameSplit_whitespace_counterexample :
    firstNameOf "John\tSmith" = "John\tSmith" ∧
    wsFirstNameOf "John\tSmith" = "John" ∧
    firstNameOf "John\tSmith" ≠ wsFirstNameOf "John\tSmith" := by
  decide

/-- C5 amended: the splitter trims, splits on the space character,
drops empty tokens, takes the first token as the first name and the
remaining tokens joined with single spaces as the last name; it agrees
with whitespace splitting on every name whose trimmed form contains no
whitespace other than spaces, and the four quoted examples hold. -/
theorem nameSplit_space_spec (s : String)
    (h : ∀ c ∈ (jsTrim s).data, c.isWhitespace = true → c = ' ') :
    (firstNameOf s = wsFirstNameOf s ∧ lastNameOf s = wsLastNameOf s) ∧
    (firstNameOf "John Smith" = "John" ∧ lastNameOf "John Smith" = "Smith") ∧
    (firstNameOf "Madonna" = "Madonna" ∧ lastNameOf "Madonna" = "") ∧
    (firstNameOf "Mary Jane Watson" = "Mary" ∧
      lastNameOf "Mary Jane Watson" = "Jane Watson") ∧
    (firstNameOf "" = "" ∧ lastNameOf "" = "") := by
  have key : nameTokens s = wsTokens s := by
    unfold nameTokens wsTokens
    rw [splitP_congr (fun c => c == ' ') Char.isWhitespace (jsTrim s).data ?c]
    case c =>
      intro c hc
      by_cases hsp : c = ' '
      · subst hsp; decide
      · cases hw : c.isWhitespace with
        | false => simp [hsp, hw]
        | true => exact absurd (h c hc hw) hsp
  refine ⟨⟨?_, ?_⟩, by decide, by decide, by decide, by decide⟩
  · unfold firstNameOf wsFirstNameOf
    rw [key]
  · unfold lastNameOf wsLastNameOf
    rw [key]

/-- Witness for `nameSplit_space_spec` at a three-token name. -/
theorem nameSplit_space_spec_witness :
    (∀ c ∈ (jsTrim "Mary Jane Watson").data, c.isWhitespace = true → c = ' ') ∧
    (firstNameOf "Mary Jane Watson" = wsFirstNameOf "Mary Jane Watson" ∧
      lastNameOf "Mary Jane Watson" = wsLastNameOf "Mary Jane Watson") :=
  ⟨by decide, (nameSplit_space_spec "Mary Jane Watson" (by decide)).1⟩

/-- Counterexample to C2 as stated: a draft whose phone has a leading
space passes validation (its trim has length 10), yet the payload sent
carries the raw, untrimmed phone string, which differs from the trimmed
one. -/
theorem payload_phone_counterexample :
    quickIntakeParse (draftOf sampleState) = true ∧
    fetchedPayloads (onSubmit sampleState (some "abc123") FetchResult.ok) =
      [buildPayload (draftOf sampleState) "abc123"] ∧
    (buildPayload (draftOf sampleState) "abc123").patient_data.phone ≠
      jsTrim sampleState.phone := by
  decide

/-- C2 amended: for every submit attempt whose payload reaches the
network call, the draft passed validation, patient_data.phone is the raw
phone string exactly as entered (not trimmed), and first_name and
last_name are derived by splitting the trimmed fullName. -/
theorem payload_patient_data_spec (s : FormState) (sid : Option String)
    (net : FetchResult) (p : SubmissionPayload)
    (hp : p ∈ fetchedPayloads (onSubmit s sid net)) :
    quickIntakeParse (draftOf s) = true ∧
    p.patient_data.phone = s.phone ∧
    p.patient_data.first_name = firstNameOf s.fullName ∧
    p.patient_data.last_name = lastNameOf s.fullName := by
  obtain ⟨hpe, hq, _⟩ := fetch_payload_eq s sid net p hp
  subst hpe
  exact ⟨hq, rfl, rfl, rfl⟩

/-- Witness for `payload_patient_data_spec` at the sample state. -/
theorem payload_patient_data_spec_witness :
    buildPayload (draftOf sampleState) "abc123" ∈
      fetchedPayloads (onSubmit sampleState (some "abc123") FetchResult.ok) ∧
    (buildPayload (draftOf sampleState) "abc123").patient_data.phone =
      sampleState.phone :=
  ⟨by decide,
    (payload_patient_data_spec sampleState (some "abc123") FetchResult.ok
      (buildPayload (draftOf sampleState) "abc123") (by decide)).2.1⟩

/-- C3: every payload that reaches the network call has the constant
consent block (privacy and communication true, treatment false), the
empty medical history, and the constant status string, independent of
the draft. -/
theorem payload_constants_spec (s : FormState) (sid : Option String)
    (net : FetchResult) (p : SubmissionPayload)
    (hp : p ∈ fetchedPayloads (onSubmit s sid net)) :
    p.consent_data =
      { privacy_consent := true
        treatment_consent := false
        communication_consent := true } ∧
    p.medical_history = [] ∧
    p.status = "submitted" := by
  obtain ⟨hpe, _, _⟩ := fetch_payload_eq s sid net p hp
  subst hpe
  exact ⟨rfl, rfl, rfl⟩

/-- Witness for `payload_constants_spec` at the sample state. -/
theorem payload_constants_spec_witness :
    buildPayload (draftOf sampleState) "abc123" ∈
      fetchedPayloads (onSubmit sampleState (some "abc123") FetchResult.ok) ∧
    (buildPayload (draftOf sampleState) "abc123").status = "submitted" :=
  ⟨by decide,
    (payload_constants_spec sampleState (some "abc123") FetchResult.ok
      (buildPayload (draftOf sampleState) "abc123") (by decide)).2.2⟩

/-- C6: when the session id is absent (null or empty), no network call
is made whatever the draft; when the draft is otherwise valid the
missing-session message is shown, and that message differs from the
generic validation message. -/
theorem missing_session_blocks (s : FormState) (sid : Option String)
    (net : FetchResult) (h : sessionPresent sid = false) :
    fetchedPayloads (onSubmit s sid net) = [] ∧
    (quickIntakeParse (draftOf s) = true →
      (onSubmit s sid net).final.error = some missingSessionMsg) ∧
    missingSessionMsg ≠ validationMsg := by
  refine ⟨?_, ?_, by decide⟩
  · cases hq : quickIntakeParse (draftOf s) with
    | false =>
      rw [onSubmit_invalid_eq s sid net hq]
      simp [fetchedPayloads]
    | true =>
      rw [onSubmit_noSession_eq s sid net hq h]
      simp [fetchedPayloads]
  · intro hq
    rw [onSubmit_noSession_eq s sid net hq h]

/-- Witness for `missing_session_blocks` with no session at a valid
draft. -/
theorem missing_session_blocks_witness :
    sessionPresent none = false ∧
    fetchedPayloads (onSubmit sampleState none FetchResult.ok) = [] :=
  ⟨by decide, (missing_session_blocks sampleState none FetchResult.ok rfl).1⟩

/-- C7: for every submit attempt that reaches the network call, an HTTP
success status yields the success outcome, a non-success status or a
failed request yields the failure outcome whose message contains the
fallback phone contact, and in every case the handler returns a
classified state (success with no error, or failure with the submission
message) — no failure escapes. -/
theorem submit_outcome_spec (s : FormState) (sid : Option String) (net : FetchResult)
    (hs : s.success = false)
    (hp : fetchedPayloads (onSubmit s sid net) ≠ []) :
    (net = FetchResult.ok →
      (onSubmit s sid net).final.success = true ∧
      (onSubmit s sid net).final.error = none) ∧
    (net ≠ FetchResult.ok →
      (onSubmit s sid net).final.success = false ∧
      (onSubmit s sid net).final.error = some submissionFailMsg ∧
      ∃ pre post, submissionFailMsg = pre ++ fallbackPhone ++ post) ∧
    ((onSubmit s sid net).final.success = true ∧
        (onSubmit s sid net).final.error = none ∨
      (onSubmit s sid net).final.success = false ∧
        (onSubmit s sid net).final.error = some submissionFailMsg) := by
  have hq : quickIntakeParse (draftOf s) = true := by
    cases hq : quickIntakeParse (draftOf s) with
    | false =>
      refine absurd ?_ hp
      rw [onSubmit_invalid_eq s sid net hq]
      simp [fetchedPayloads]
    | true => rfl
  have hsid : sessionPresent sid = true := by
    cases hd : sessionPresent sid with
    | false =>
      refine absurd ?_ hp
      rw [onSubmit_noSession_eq s sid net hq hd]
      simp [fetchedPayloads]
    | true => rfl
  have hmsg : ∃ pre post, submissionFailMsg = pre ++ fallbackPhone ++ post :=
    ⟨"Something went wrong submitting your intake. Please call ", ".", by decide⟩
  cases net with
  | ok =>
    rw [onSubmit_ok_eq s sid hq hsid]
    exact ⟨fun _ => ⟨rfl, rfl⟩, fun hn => absurd rfl hn, Or.inl ⟨rfl, rfl⟩⟩
  | httpError =>
    rw [onSubmit_fail_eq s sid FetchResult.httpError hq hsid (by simp)]
    refine ⟨fun hn => ?_, fun _ => ⟨hs, rfl, hmsg⟩, Or.inr ⟨hs, rfl⟩⟩
    exact absurd hn (by simp)
  | networkFailure =>
    rw [onSubmit_fail_eq s sid FetchResult.networkFailure hq hsid (by simp)]
    refine ⟨fun hn => ?_, fun _ => ⟨hs, rfl, hmsg⟩, Or.inr ⟨hs, rfl⟩⟩
    exact absurd hn (by simp)

/-- Witness for `submit_outcome_spec` with a failing endpoint at the
sample state. -/
theorem submit_outcome_spec_witness :
    sampleState.success = false ∧
    fetchedPayloads (onSubmit sampleState (some "abc123") FetchResult.httpError) ≠ [] ∧
    ((onSubmit sampleState (some "abc123") FetchResult.httpError).final.success = false ∧
      (onSubmit sampleState (some "abc123") FetchResult.httpError).final.error =
        some submissionFailMsg ∧
      ∃ pre post, submissionFailMsg = pre ++ fallbackPhone ++ post) :=
  ⟨rfl, by decide,
    (submit_outcome_spec sampleState (some "abc123") FetchResult.httpError rfl
      (by decide)).2.1 (by simp)⟩

/-- C8: the success view renders no form controls, so once `success` is
set every event leaves the state unchanged and performs no effect:
Success is terminal. -/
theorem success_terminal (s : FormState) (e : Event) (h : s.success = true) :
    (step s e).final = s ∧ (step s e).trace = [] := by
  unfold step
  rw [h]
  simp

/-- Witness for `success_terminal` at the succeeded sample state. -/
theorem success_terminal_witness :
    succeededState.success = true ∧
    (step succeededState (Event.setFullName "X")).final = succeededState :=
  ⟨rfl, (success_terminal succeededState (Event.setFullName "X") rfl).1⟩

/-- C9: while a submission is in flight the submit button is disabled,
so a submit click changes nothing and sends nothing; moreover every run
that performs a fetch sets the in-flight flag immediately before the
fetch and clears it as its last effect, and ends with the flag
cleared — on success and on failure alike. -/
theorem single_flight_spec (s : FormState) (sid : Option String) (net : FetchResult)
    (h : s.isSubmitting = true) :
    (step s (Event.submitClick sid net)).final = s ∧
    fetchedPayloads (step s (Event.submitClick sid net)) = [] ∧
    (∀ (s' : FormState) (sid' : Option String) (net' : FetchResult)
        (p : SubmissionPayload),
      Action.fetch p ∈ (onSubmit s' sid' net').trace →
      (∃ a, (onSubmit s' sid' net').trace =
        [Action.setError none, Action.setSubmitting true, Action.fetch p, a,
         Action.setSubmitting false]) ∧
      (onSubmit s' sid' net').final.isSubmitting = false) := by
  have hstep : step s (Event.submitClick sid net) = { final := s, trace := [] } := by
    unfold step
    cases hsucc : s.success with
    | true => simp
    | false => simp [h]
  refine ⟨by rw [hstep], by rw [hstep]; simp [fetchedPayloads], ?_⟩
  intro s' sid' net' p hp
  cases hq : quickIntakeParse (draftOf s') with
  | false =>
    rw [onSubmit_invalid_eq s' sid' net' hq] at hp
    simp at hp
  | true =>
    cases hsid : sessionPresent sid' with
    | false =>
      rw [onSubmit_noSession_eq s' sid' net' hq hsid] at hp
      simp at hp
    | true =>
      cases net' with
      | ok =>
        rw [onSubmit_ok_eq s' sid' hq hsid] at hp ⊢
        simp only [List.mem_cons, List.not_mem_nil, or_false, Action.fetch.injEq,
          reduceCtorEq, false_or] at hp
        subst hp
        exact ⟨⟨Action.setSuccess true, rfl⟩, rfl⟩
      | httpError =>
        rw [onSubmit_fail_eq s' sid' FetchResult.httpError hq hsid (by simp)] at hp ⊢
        simp only [List.mem_cons, List.not_mem_nil, or_false, Action.fetch.injEq,
          reduceCtorEq, false_or] at hp
        subst hp
        exact ⟨⟨Action.setError (some submissionFailMsg), rfl⟩, rfl⟩
      | networkFailure =>
        rw [onSubmit_fail_eq s' sid' FetchResult.networkFailure hq hsid (by simp)] at hp ⊢
        simp only [List.mem_cons, List.not_mem_nil, or_false, Action.fetch.injEq,
          reduceCtorEq, false_or] at hp
        subst hp
        exact ⟨⟨Action.setError (some submissionFailMsg), rfl⟩, rfl⟩

/-- Witness for `single_flight_spec` at a state already submitting. -/
theorem single_flight_spec_witness :
    inFlightState.isSubmitting = true ∧
    (step inFlightState (Event.submitClick (some "abc123") FetchResult.ok)).final =
      inFlightState :=
  ⟨rfl, (single_flight_spec inFlightState (some "abc123") FetchResult.ok rfl).1⟩

/-- C10: `onSubmit` never changes the six draft fields, whatever the
outcome; and on a validation failure or a missing session the final
state is the initial state with only the error message replaced. -/
theorem submit_frame_spec (s : FormState) (sid : Option String) (net : FetchResult) :
    ((onSubmit s sid net).final.fullName = s.fullName ∧
     (onSubmit s sid net).final.phone = s.phone ∧
     (onSubmit s sid net).final.issueType = s.issueType ∧
     (onSubmit s sid net).final.location = s.location ∧
     (onSubmit s sid net).final.consentPrivacy = s.consentPrivacy ∧
     (onSubmit s sid net).final.consentCommunication = s.consentCommunication) ∧
    (quickIntakeParse (draftOf s) = false →
      (onSubmit s sid net).final = { s with error := some validationMsg }) ∧
    (quickIntakeParse (draftOf s) = true → sessionPresent sid = false →
      (onSubmit s sid net).final = { s with error := some missingSessionMsg }) := by
  refine ⟨?_, ?_, ?_⟩
  · cases hq : quickIntakeParse (draftOf s) with
    | false =>
      rw [onSubmit_invalid_eq s sid net hq]
      exact ⟨rfl, rfl, rfl, rfl, rfl, rfl⟩
    | true =>
      cases hsid : sessionPresent sid with
      | false =>
        rw [onSubmit_noSession_eq s sid net hq hsid]
        exact ⟨rfl, rfl, rfl, rfl, rfl, rfl⟩
      | true =>
        cases net with
        | ok =>
          rw [onSubmit_ok_eq s sid hq hsid]
          exact ⟨rfl, rfl, rfl, rfl, rfl, rfl⟩
        | httpError =>
          rw [onSubmit_fail_eq s sid FetchResult.httpError hq hsid (by simp)]
          exact ⟨rfl, rfl, rfl, rfl, rfl, rfl⟩
        | networkFailure =>
          rw [onSubmit_fail_eq s sid FetchResult.networkFailure hq hsid (by simp)]
          exact ⟨rfl, rfl, rfl, rfl, rfl, rfl⟩
  · intro hq
    rw [onSubmit_invalid_eq s sid net hq]
  · intro hq hsid
    rw [onSubmit_noSession_eq s sid net hq hsid]

/-- Witness for `submit_frame_spec` at the invalid sample state. -/
theorem submit_frame_spec_witness :
    quickIntakeParse (draftOf invalidState) = false ∧
    (onSubmit invalidState (some "abc123") FetchResult.ok).final =
      { invalidState with error := some validationMsg } :=
  ⟨by decide,
    (submit_frame_spec invalidState (some "abc123") FetchResult.ok).2.1 (by decide)⟩

/-- Witness for `issueTypeToInsurance_spec` discharging the enumeration
hypothesis at work_injury. -/
theorem issueTypeToInsurance_spec_witness :
    "work_injury" ∈ issueTypes ∧
    issueTypeToInsurance "work_injury" ∈ ["wcb", "mva", "private"] :=
  ⟨by decide, issueTypeToInsurance_spec.2.2.2.2.2 "work_injury" (by decide)⟩

end QuickIntake
